import Mathlib

/-!
Verification of the CANopen object-dictionary tables of this repository.

The repository consists of two static initializer tables:
  * `co_dict` (co_dictionary.cpp): the CANopen stack object dictionary of the
    VMU_N1 vehicle controller — an array of `CO_OBJ_T` records, each built with
    the `CO_KEY(index, subindex, flags)` macro, and terminated by
    `CO_OBJ_DIR_ENDMARK` (an all-zero record).
  * `OBJECT_DICTIONARY` (objectdictionary.cpp): a `std::map` from
    (index, subindex) keys to human-readable metadata records `ODEntryValue`.

The dictionary engine itself (lookup, access mediation, handlers) is not part
of the visible source; where a claim needs it, it is modelled from the spec and
marked as such in its doc comment.
-/

set_option maxRecDepth 4000

/-- Wire width / type code carried in the `CO_KEY` flags:
`CO_UNSIGNED8/16/32`, `CO_SIGNED8/16/32`, `CO_STRING`.
`w0` is the zero flag field of the all-zero end-mark record. -/
inductive CoWidth where
  | u8 | u16 | u32 | s8 | s16 | s32 | str | w0
deriving DecidableEq, Repr

/-- Access-mode bits of the `CO_KEY` flags: `CO_OBJ____R_` (read-only),
`CO_OBJ_____W` (write-only), `CO_OBJ____RW` (read-write);
`na` is the zero access field of the all-zero end-mark record. -/
inductive CoAccess where
  | ro | wo | rw | na
deriving DecidableEq, Repr

/-- The `Type` field of a record: `0` (plain scalar), `CO_TSTRING`
(string-table handler) or `CO_COUNTER` (event-counter handler). -/
inductive CoType where
  | plain | tstring | counter
deriving DecidableEq, Repr

/-- The `Data` field of a record: either a plain `uint32_t` literal, a
database key `static_cast<uint32_t>(eIndex::NAME)` (the numeric enum values
live in a header that is not part of the visible source, so the enumerator
name stands for the value), or one of the two build-time COB-ID constants of
the 0x1200 SDO server object. -/
inductive DataField where
  | lit (n : Nat)
  | dbIdx (name : String)
  | sdoRequest
  | sdoResponse
deriving DecidableEq, Repr

/-- The `DataPtr` field of a record, kept at the level of the source literals:
`0` for direct-storage records, the literal `nullptr` for database-deferred
records, or the address of a named variable / string structure. -/
inductive DataPtr where
  | zeroLit
  | nullptrLit
  | addr (name : String)
deriving DecidableEq, Repr

/-- One record of the CanOpen dictionary (`CO_OBJ_T`).  The packed
`CO_KEY(index, subindex, flags)` word is split into its fields: the 16-bit
index, the 8-bit subindex, the width code, access bits, the direct-storage bit
`CO_OBJ_D____` and the node-id bit `CO_OBJ__N___`. -/
structure CO_OBJ_T where
  index : Nat
  subindex : Nat
  width : CoWidth
  access : CoAccess
  direct : Bool
  nodeId : Bool
  ty : CoType
  data : DataField
  dataPtr : DataPtr
  extraFlags : Nat
deriving DecidableEq, Repr

/-- Value of the application flag `INIT_FROM_DB_FLAG` (a single flag bit;
its numeric value lives in a header outside the visible source). -/
def INIT_FROM_DB_FLAG : Nat := 1

/-- Record built as `{CO_KEY(i, s, w | CO_OBJ_D__R_), 0, d, 0, 0}`:
read-only direct storage holding literal `d`. -/
def dR (i s : Nat) (w : CoWidth) (d : Nat) : CO_OBJ_T :=
  ⟨i, s, w, .ro, true, false, .plain, .lit d, .zeroLit, 0⟩

/-- Record built as `{CO_KEY(i, s, w | CO_OBJ_DN_R_), 0, d, 0, 0}`:
read-only direct storage with node-id addition (the 0x1200 COB-IDs). -/
def dnR (i s : Nat) (w : CoWidth) (d : DataField) : CO_OBJ_T :=
  ⟨i, s, w, .ro, true, true, .plain, d, .zeroLit, 0⟩

/-- Record built as `{CO_KEY(i, s, CO_STRING | CO_OBJ____R_), CO_TSTRING, 0, p, 0}`:
read-only string accessed through the `CO_TSTRING` handler. -/
def strR (i s : Nat) (p : DataPtr) : CO_OBJ_T :=
  ⟨i, s, .str, .ro, false, false, .tstring, .lit 0, p, 0⟩

/-- Record built as `{CO_KEY(i, s, w | CO_OBJ____R_), 0, 0, &var, 0}`:
read-only value stored behind a pointer to a named variable. -/
def ptrR (i s : Nat) (w : CoWidth) (p : DataPtr) : CO_OBJ_T :=
  ⟨i, s, w, .ro, false, false, .plain, .lit 0, p, 0⟩

/-- Record built as
`{CO_KEY(i, s, w | CO_OBJ____R_), 0, cast(eIndex::nm), nullptr, INIT_FROM_DB_FLAG}`:
read-only value deferred to the external database. -/
def dbR (i s : Nat) (w : CoWidth) (nm : String) : CO_OBJ_T :=
  ⟨i, s, w, .ro, false, false, .plain, .dbIdx nm, .nullptrLit, INIT_FROM_DB_FLAG⟩

/-- Record built as
`{CO_KEY(i, s, w | CO_OBJ____RW), 0, cast(eIndex::nm), nullptr, INIT_FROM_DB_FLAG}`:
read-write value deferred to the external database. -/
def dbRW (i s : Nat) (w : CoWidth) (nm : String) : CO_OBJ_T :=
  ⟨i, s, w, .rw, false, false, .plain, .dbIdx nm, .nullptrLit, INIT_FROM_DB_FLAG⟩

/-- Record built as
`{CO_KEY(i, s, w | CO_OBJ____RW), CO_COUNTER, cast(eIndex::nm), nullptr, INIT_FROM_DB_FLAG}`:
read-write event counter deferred to the external database. -/
def cntRW (i s : Nat) (w : CoWidth) (nm : String) : CO_OBJ_T :=
  ⟨i, s, w, .rw, false, false, .counter, .dbIdx nm, .nullptrLit, INIT_FROM_DB_FLAG⟩

/-- The all-zero terminator record `CO_OBJ_DIR_ENDMARK`; every flag field of
its zero key decodes to the corresponding zero constructor. -/
def CO_OBJ_DIR_ENDMARK : CO_OBJ_T :=
  ⟨0, 0, .w0, .na, false, false, .plain, .lit 0, .zeroLit, 0⟩

/-- The used records of `co_dict`, in source order, end-mark excluded. -/
def co_dict_used : List CO_OBJ_T := [
  dR 0x1000 0 .u32 0x198,
  dR 0x1005 0 .u32 0x80,
  strR 0x1008 0 (.addr "manuf_data"),
  strR 0x1009 0 (.addr "manuf_data+1"),
  strR 0x100A 0 (.addr "manuf_data+2"),
  dbR 0x1017 0 .u16 "CO_PRODUCER_HB",
  dR 0x1018 0 .u8 4,
  dR 0x1018 1 .u32 0,
  dR 0x1018 2 .u32 0,
  dR 0x1018 3 .u32 0,
  dR 0x1018 4 .u32 0,
  dR 0x1200 0 .u8 2,
  dnR 0x1200 1 .u32 .sdoRequest,
  dnR 0x1200 2 .u32 .sdoResponse,
  dR 0x2100 0 .u8 2,
  dbRW 0x2100 1 .u8 "GLOBAL_MANUAL_ENABLE",
  dbRW 0x2100 2 .u8 "JOYSTICK_ENABLE",
  dR 0x2101 0 .u8 1,
  dbRW 0x2101 1 .u16 "LIGHTS_TURNS_PERIOD_MS",
  dR 0x2102 0 .u8 2,
  cntRW 0x2102 1 .u32 "EEPROM_CMD_READ",
  cntRW 0x2102 2 .u32 "EEPROM_CMD_WRITE",
  dR 0x2103 0 .u8 4,
  ptrR 0x2103 1 .u32 (.addr "k_commit_hash"),
  ptrR 0x2103 2 .u8 (.addr "k_commit_time"),
  ptrR 0x2103 3 .u8 (.addr "k_commit_time+1"),
  ptrR 0x2103 4 .u8 (.addr "k_commit_time+2"),
  dR 0x2107 0 .u8 8,
  dbR 0x2107 1 .u8 "PSTED_OUT_RUN",
  dbR 0x2107 2 .u8 "PSTED_OUT_EM_STOP",
  dbR 0x2107 3 .s16 "PSTED_OUT_REF_MAIN_VALUE",
  dbR 0x2107 4 .u8 "PSTED_OUT_REF_FLUX_CURRENT",
  dbR 0x2107 5 .u16 "PSTED_OUT_BMS_VOLTAGE",
  dbR 0x2107 6 .u8 "SYSTEM_PSTED_ONLINE",
  dbR 0x2107 7 .s16 "PSTED_OUT_REF_ANGLE",
  dbR 0x2107 8 .u16 "PSTED_OUT_MOTOR_VELOCITY_LIMIT",
  dR 0x2108 0 .u8 16,
  dbR 0x2108 1 .u32 "PSTED_STATUS",
  dbR 0x2108 2 .s8 "PSTED_TORQUE",
  dbR 0x2108 3 .s16 "PSTED_MOTOR_SPEED",
  dbR 0x2108 4 .s8 "PSTED_CURRENT",
  dbR 0x2108 5 .s8 "PSTED_POWER",
  dbR 0x2108 6 .u8 "PSTED_VOLTAGE",
  dbR 0x2108 7 .u8 "PSTED_PHASE_VOLTAGE",
  dbR 0x2108 8 .u8 "PSTED_MOTOR_TEMP",
  dbR 0x2108 9 .u8 "PSTED_FLUXCOIL_TEMP",
  dbR 0x2108 10 .u8 "PSTED_INV_RADIATOR_TEMP",
  dbR 0x2108 11 .u8 "PSTED_INV_INTERNAL_TEMP",
  dbR 0x2108 12 .u32 "PSTED_ISOLATION_STATUS",
  dbR 0x2108 13 .u32 "PSTED_ERRORS_1",
  dbR 0x2108 14 .u16 "PSTED_ERRORS_2",
  dbR 0x2108 15 .u16 "PSTED_WARNINGS",
  dbRW 0x2108 16 .s16 "PSTED_MANUAL_REFTORQUE",
  dR 0x2109 0 .u8 9,
  dbRW 0x2109 1 .u8 "PSTED_TORQUE_INVERT",
  dbRW 0x2109 2 .u16 "PSTED_RAMP_MAX_TORQUE",
  dbRW 0x2109 3 .u16 "PSTED_RAMP_TIME_MS",
  dbRW 0x2109 4 .u16 "PSTED_ONLINE_TIMEOUT_MS",
  dbRW 0x2109 5 .u8 "PSTED_CONTROL_MODE",
  dbRW 0x2109 6 .u16 "PSTED_MAX_STATOR_CURRENT",
  dbRW 0x2109 7 .u16 "PSTED_IF_TO_IQ_MULT",
  dbRW 0x2109 8 .s16 "PSTED_DEFAULT_ANGLE",
  dbRW 0x2109 9 .u16 "PSTED_DEFAULT_MOTOR_VELOCITY_LIMIT",
  dR 0x2110 0 .u8 4,
  dbRW 0x2110 1 .s16 "STEERING_MANUAL_CMD_FRONT",
  dbRW 0x2110 2 .s16 "STEERING_MANUAL_CMD_REAR",
  dbRW 0x2110 3 .u16 "STEERING_PARAM_MSG_TIMEOUT",
  dbRW 0x2110 4 .u8 "STEERING_PARAM_REAR_TASK_ACTIVE",
  dR 0x2111 0 .u8 14,
  dbR 0x2111 1 .u32 "STEERING_AUTOPILOT_CMD_FRONT",
  dbR 0x2111 2 .u32 "STEERING_AUTOPILOT_CUR_POS_FRONT",
  dbR 0x2111 3 .s16 "STEERING_SERVO_CMD_FRONT",
  dbR 0x2111 4 .s16 "STEERING_SERVO_CUR_POS_FRONT",
  dbR 0x2111 5 .u8 "STEERING_SERVO_RUN_FRONT",
  dbR 0x2111 6 .u8 "STEERING_SERVO_ONLINE_FRONT",
  dbRW 0x2111 7 .s16 "STEERING_PARAM_ZERO_FRONT",
  dbRW 0x2111 8 .s16 "STEERING_PARAM_MAX_FRONT",
  dbRW 0x2111 9 .s16 "STEERING_PARAM_MIN_FRONT",
  dbRW 0x2111 10 .u8 "STEERING_PARAM_INVERT_FRONT",
  dbR 0x2111 11 .u8 "STEERING_SERVO_STATUS_FRONT",
  dbR 0x2111 12 .s16 "STEERING_SERVO_CURRENT_FRONT",
  dbR 0x2111 13 .u8 "STEERING_SERVO_TEMP_FRONT",
  dbR 0x2111 14 .u8 "STEERING_SERVO_MOTORTEMP_FRONT",
  dR 0x2112 0 .u8 14,
  dbR 0x2112 1 .u32 "STEERING_AUTOPILOT_CMD_REAR",
  dbR 0x2112 2 .u32 "STEERING_AUTOPILOT_CUR_POS_REAR",
  dbR 0x2112 3 .s16 "STEERING_SERVO_CMD_REAR",
  dbR 0x2112 4 .s16 "STEERING_SERVO_CUR_POS_REAR",
  dbR 0x2112 5 .u8 "STEERING_SERVO_RUN_REAR",
  dbR 0x2112 6 .u8 "STEERING_SERVO_ONLINE_REAR",
  dbRW 0x2112 7 .s16 "STEERING_PARAM_ZERO_REAR",
  dbRW 0x2112 8 .s16 "STEERING_PARAM_MAX_REAR",
  dbRW 0x2112 9 .s16 "STEERING_PARAM_MIN_REAR",
  dbRW 0x2112 10 .u8 "STEERING_PARAM_INVERT_REAR",
  dbR 0x2112 11 .u8 "STEERING_SERVO_STATUS_REAR",
  dbR 0x2112 12 .s16 "STEERING_SERVO_CURRENT_REAR",
  dbR 0x2112 13 .u8 "STEERING_SERVO_TEMP_REAR",
  dbR 0x2112 14 .u8 "STEERING_SERVO_MOTORTEMP_REAR",
  dR 0x2113 0 .u8 5,
  dbR 0x2113 1 .u8 "IOLIB_ERROR_CODE",
  dbR 0x2113 2 .u8 "IOLIB_ERROR_DEVICE",
  dbR 0x2113 3 .u16 "IOLIB_CFG_FLASH_ERRORS",
  dbR 0x2113 4 .u16 "IOLIB_FLASH_ERRORS",
  dbR 0x2113 5 .u16 "IOLIB_RAM_ERRORS",
  dR 0x2114 0 .u8 3,
  dbR 0x2114 1 .u8 "MAINFSM_CURRENT_STATE",
  dbRW 0x2114 2 .u16 "MAINFSM_STARTUP_TIMEOUT_MS",
  dbRW 0x2114 3 .u16 "VEHICLE_STOP_TIMEOUT_MS",
  dR 0x2115 0 .u8 5,
  dbR 0x2115 1 .u16 "CANOPEN_LISTER_FAULT_VALUE",
  dbR 0x2115 2 .u8 "CANOPEN_LISTER_FAULT_NUM",
  dbR 0x2115 3 .u16 "CANOPEN_LISTER_WARNING_VALUE",
  dbR 0x2115 4 .u8 "CANOPEN_LISTER_WARNING_NUM",
  dbRW 0x2115 5 .u16 "CANOPEN_LISTER_TIMEOUT_MS",
  dR 0x2116 0 .u8 23,
  dbRW 0x2116 1 .u16 "BRAKE_ACC_PRESSURE_MAX",
  dbRW 0x2116 2 .u16 "BRAKE_ACC_PRESSURE_MIN",
  dbRW 0x2116 3 .u16 "BRAKE_ACC_PRESSURE_CRITICAL",
  dbRW 0x2116 4 .u16 "BRAKE_ACC_CRITICAL_TIMEOUT_MS",
  dbRW 0x2116 5 .u16 "BRAKE_SLA_VOLT_MAX",
  dbRW 0x2116 6 .u16 "BRAKE_SLA_VOLT_MIN",
  dbRW 0x2116 7 .u16 "BRAKE_SLR_VOLT_MAX",
  dbRW 0x2116 8 .u16 "BRAKE_SLR_VOLT_MIN",
  dbRW 0x2116 9 .u16 "BRAKE_PID_PROP_NUM",
  dbRW 0x2116 10 .u16 "BRAKE_PID_PROP_DENOM",
  dbRW 0x2116 11 .u16 "BRAKE_PID_INT_NUM",
  dbRW 0x2116 12 .u16 "BRAKE_PID_INT_DENOM",
  dbRW 0x2116 13 .u8 "BRAKE_DIRECT_UNITS_CONTROL",
  dbRW 0x2116 14 .u8 "BRAKE_TASK_ACTIVE",
  dbRW 0x2116 15 .u8 "BRAKE_ADC_FILTER_FACTOR",
  dbRW 0x2116 16 .u8 "BRAKE_MIN_VALID_CMD_VALUE",
  dbRW 0x2116 17 .u16 "BRAKE_MAX_ALLOW_PRESSURE_AT_ZERO",
  dbRW 0x2116 18 .u8 "BRAKE_EMERGENCY_STOP_POWER",
  dbRW 0x2116 19 .u8 "BRAKE_FRONT_CONTOUR_ENABLE",
  dbRW 0x2116 20 .u8 "BRAKE_REAR_CONTOUR_ENABLE",
  dbRW 0x2116 21 .u16 "BRAKE_PUMP_LOWER_THRES",
  dbRW 0x2116 22 .u16 "BRAKE_PUMP_UPPER_THRES",
  dbRW 0x2116 23 .u8 "BRAKE_VELOCITY_CONTROL_ENABLE",
  dR 0x2117 0 .u8 15,
  dbRW 0x2117 1 .u8 "BRAKE_CMD_CANOPEN",
  dbR 0x2117 2 .u16 "BRAKE_CONT_REAR_CUR_PRESSURE_CANOPEN",
  dbR 0x2117 3 .u16 "BRAKE_CONT_FRONT_CUR_PRESSURE_CANOPEN",
  dbR 0x2117 4 .u8 "BRAKE_PUMP_ENABLED",
  dbR 0x2117 5 .u16 "BRAKE_ACC_CUR_PRESSURE",
  dbRW 0x2117 6 .u8 "BRAKE_MANUAL_PUMP_EN",
  dbRW 0x2117 9 .u16 "BRAKE_SOL_ACCUM_REAR_MANUAL_CTRL",
  dbRW 0x2117 10 .u16 "BRAKE_SOL_REL_REAR_MANUAL_CTRL",
  dbRW 0x2117 11 .u16 "BRAKE_SOL_ACCUM_FRONT_MANUAL_CTRL",
  dbRW 0x2117 12 .u16 "BRAKE_SOL_REL_FRONT_MANUAL_CTRL",
  dbR 0x2117 13 .u8 "BRAKE_ACC_ERRORS",
  dbR 0x2117 14 .u8 "BRAKE_CONT_FRONT_ERRORS",
  dbR 0x2117 15 .u8 "BRAKE_CONT_REAR_ERRORS",
  dR 0x2118 0 .u8 10,
  dbRW 0x2118 1 .u16 "BRAKE_CURVE_TIME_1",
  dbRW 0x2118 2 .u16 "BRAKE_CURVE_TIME_2",
  dbRW 0x2118 3 .u16 "BRAKE_CURVE_TIME_3",
  dbRW 0x2118 4 .u16 "BRAKE_CURVE_TIME_4",
  dbRW 0x2118 5 .u16 "BRAKE_CURVE_TIME_5",
  dbRW 0x2118 6 .u8 "BRAKE_CURVE_PRESSURE_1",
  dbRW 0x2118 7 .u8 "BRAKE_CURVE_PRESSURE_2",
  dbRW 0x2118 8 .u8 "BRAKE_CURVE_PRESSURE_3",
  dbRW 0x2118 9 .u8 "BRAKE_CURVE_PRESSURE_4",
  dbRW 0x2118 10 .u8 "BRAKE_CURVE_PRESSURE_5",
  dR 0x2120 0 .u8 4,
  dbR 0x2120 1 .u8 "SYSTEM_BKU_ONLINE",
  dbRW 0x2120 2 .u16 "POWER_BKU_TURNOFF_TIMEOUT_MS",
  dbRW 0x2120 3 .u16 "SYSTEM_BKU_MSG_TIMEOUT",
  dbRW 0x2120 4 .u16 "JOYSTICK_TIMEOUT_MS",
  dR 0x2121 0 .u8 2,
  dbR 0x2121 1 .u32 "SYSTEM_MAINLOOP_TIME",
  dbR 0x2121 2 .u32 "SYSTEM_MAINLOOP_MAX_TIME",
  dR 0x2125 0 .u8 1,
  cntRW 0x2125 1 .u32 "RESET_ERRORS_CMD_CANOPEN",
  dR 0x2126 0 .u8 11,
  dbR 0x2126 1 .u8 "LOG_LAST_IDX",
  dbR 0x2126 2 .u16 "LOG_FAULT_0",
  dbR 0x2126 3 .u16 "LOG_FAULT_1",
  dbR 0x2126 4 .u16 "LOG_FAULT_2",
  dbR 0x2126 5 .u16 "LOG_FAULT_3",
  dbR 0x2126 6 .u16 "LOG_FAULT_4",
  dbR 0x2126 7 .u16 "LOG_FAULT_5",
  dbR 0x2126 8 .u16 "LOG_FAULT_6",
  dbR 0x2126 9 .u16 "LOG_FAULT_7",
  dbR 0x2126 10 .u16 "LOG_FAULT_8",
  dbR 0x2126 11 .u16 "LOG_FAULT_9",
  dR 0x2130 0 .u8 10,
  dbR 0x2130 1 .u8 "SUSPENSION_ENABLE_PIN_SIGNAL",
  dbR 0x2130 2 .s16 "SUSPENSION_HEIGHT_CUR_1",
  dbR 0x2130 3 .s16 "SUSPENSION_HEIGHT_CUR_2",
  dbR 0x2130 4 .s16 "SUSPENSION_HEIGHT_CUR_3",
  dbR 0x2130 5 .s16 "SUSPENSION_HEIGHT_CUR_4",
  dbR 0x2130 6 .u16 "SUSPENSION_PRESSURE_CUR_1",
  dbR 0x2130 7 .u16 "SUSPENSION_PRESSURE_CUR_2",
  dbR 0x2130 8 .u16 "SUSPENSION_PRESSURE_CUR_3",
  dbR 0x2130 9 .u16 "SUSPENSION_PRESSURE_CUR_4",
  dbR 0x2130 10 .u32 "SUSPENSION_TASK_DETAILED_STATUS",
  dR 0x2131 0 .u8 13,
  dbRW 0x2131 1 .u16 "SUSPENSION_PRESSURE_MAX",
  dbRW 0x2131 2 .u16 "SUSPENSION_PRESSURE_MIN",
  dbRW 0x2131 3 .u16 "SUSPENSION_HEIGHT_TOLERANCE",
  dbRW 0x2131 4 .u8 "SUSPENSION_PRESSURE_SENSOR_FILTER_PARAM",
  dbRW 0x2131 5 .u8 "SUSPENSION_HEIGHT_SENSOR_FILTER_PARAM",
  dbRW 0x2131 6 .u8 "SUSPENSION_HEIGHT_INVERT_1",
  dbRW 0x2131 7 .u8 "SUSPENSION_HEIGHT_INVERT_2",
  dbRW 0x2131 8 .u8 "SUSPENSION_HEIGHT_INVERT_3",
  dbRW 0x2131 9 .u8 "SUSPENSION_HEIGHT_INVERT_4",
  dbRW 0x2131 10 .s16 "SUSPENSION_HEIGHT_H_OFFSET_1",
  dbRW 0x2131 11 .s16 "SUSPENSION_HEIGHT_H_OFFSET_2",
  dbRW 0x2131 12 .s16 "SUSPENSION_HEIGHT_H_OFFSET_3",
  dbRW 0x2131 13 .s16 "SUSPENSION_HEIGHT_H_OFFSET_4",
  dR 0x2135 0 .u8 6,
  dbR 0x2135 1 .u16 "SYSTEM_24V_VOLTAGE",
  dbR 0x2135 2 .u16 "SYSTEM_12V_VOLTAGE",
  dbRW 0x2135 3 .u16 "SYSTEM_24V_VOLTAGE_LOWER_LIM",
  dbRW 0x2135 4 .u16 "SYSTEM_24V_VOLTAGE_UPPER_LIM",
  dbRW 0x2135 5 .u16 "SYSTEM_12V_VOLTAGE_LOWER_LIM",
  dbRW 0x2135 6 .u16 "SYSTEM_12V_VOLTAGE_UPPER_LIM",
  dR 0x2140 0 .u8 7,
  dbRW 0x2140 1 .u16 "BMS_TIMEOUT_MS",
  dbRW 0x2140 2 .u16 "CHARGER_TIMEOUT_MS",
  dbRW 0x2140 3 .u16 "CHARGER_PSTED_VOLTAGE_THRES",
  dbRW 0x2140 4 .u16 "CHARGER_IGNORE_VOLT_ERR_TIMEOUT_MS",
  dbR 0x2140 5 .u8 "SYSTEM_BMS_ONLINE",
  dbR 0x2140 6 .u8 "SYSTEM_BZU_ONLINE",
  dbR 0x2140 7 .u32 "BMS_MULTIMSG_PAGE_DEBUG",
  dR 0x2145 0 .u8 2,
  dbRW 0x2145 1 .u8 "PARKING_BRAKE_CMD_HOLD_CANOPEN",
  dbR 0x2145 2 .u8 "PARKING_BRAKE_HELD_CANOPEN",
  dR 0x2146 0 .u8 2,
  dbRW 0x2146 1 .u16 "BRAKE_DISCRETE_ACCUM_TIMEOUT_MS",
  dbRW 0x2146 2 .u16 "BRAKE_DISCRETE_TOTAL_TIMEOUT_MS",
  dR 0x2150 0 .u8 3,
  dbR 0x2150 1 .u32 "INPUT_RED_BUTTON",
  dbR 0x2150 2 .u8 "INPUT_ANTIFREEZE_SENSOR",
  dbR 0x2150 3 .u8 "INPUT_BRAKE_FLUID_SENSOR",
  dR 0x2160 0 .u8 17,
  dbRW 0x2160 1 .u8 "ABS_WHEEL_TICK_COUNT",
  dbRW 0x2160 2 .u16 "ABS_WHEEL_DIAMETER",
  dbRW 0x2160 3 .s16 "ABS_WHEEL_MIN_SPEED_THRESHOLD",
  dbRW 0x2160 4 .s16 "ABS_MOTOR_MIN_SPEED_THRESHOLD",
  dbRW 0x2160 5 .u16 "ABS_WARNING_COUNT_THRESHOLD",
  dbRW 0x2160 6 .u16 "ABS_FAILURE_COUNT_THRESHOLD",
  dbRW 0x2160 7 .u8 "ABS_SENSOR_MAPPING_FL",
  dbRW 0x2160 8 .u8 "ABS_SENSOR_MAPPING_FR",
  dbRW 0x2160 9 .u8 "ABS_SENSOR_MAPPING_RL",
  dbRW 0x2160 10 .u8 "ABS_SENSOR_MAPPING_RR",
  dbRW 0x2160 11 .u8 "ABS_FILTER_FACTOR",
  dbR 0x2160 12 .s16 "ABS_VELOCITY",
  dbR 0x2160 13 .s16 "ABS_WHEEL_FREQ_FL_CANOPEN",
  dbR 0x2160 14 .s16 "ABS_WHEEL_FREQ_FR_CANOPEN",
  dbR 0x2160 15 .s16 "ABS_WHEEL_FREQ_RL_CANOPEN",
  dbR 0x2160 16 .s16 "ABS_WHEEL_FREQ_RR_CANOPEN",
  dbRW 0x2160 17 .s16 "ABS_MIN_VELOCITY_THRESHOLD",
  dR 0x2165 0 .u8 7,
  dbRW 0x2165 1 .u8 "COOLING_MOTOR_TEMP_MIN",
  dbRW 0x2165 2 .u8 "COOLING_MOTOR_TEMP_MAX",
  dbRW 0x2165 3 .u8 "COOLING_INVERTOR_TEMP_MIN",
  dbRW 0x2165 4 .u8 "COOLING_INVERTOR_TEMP_MAX",
  dbRW 0x2165 5 .u8 "COOLING_COIL_TEMP_MIN",
  dbRW 0x2165 6 .u8 "COOLING_COIL_TEMP_MAX",
  dbRW 0x2165 7 .u8 "COOLING_FAN_ENABLE"
]

/-- The full `co_dict` array: the used records followed by the end-mark. -/
def co_dict : List CO_OBJ_T := co_dict_used ++ [CO_OBJ_DIR_ENDMARK]

/-- The `k_dict_size` constant: `sizeof(co_dict) / sizeof(co_dict[0])`. -/
def k_dict_size : Nat := co_dict.length

/-- Display type of a metadata entry (`OD_STRING`, `OD_UINT32`, `OD_FLOAT32`,
`OD_ENUM`, `OD_FUNC`). -/
inductive ODType where
  | OD_STRING | OD_UINT32 | OD_FLOAT32 | OD_ENUM | OD_FUNC
deriving DecidableEq, Repr

/-- A key of the metadata table: (index, subindex). -/
abbrev ODEntryKey : Type := Nat × Nat

/-- Value record of the metadata table: group, subgroup, display name, unit
string, display type, monitorable flag, configurable flag. -/
structure ODEntryValue where
  group : String
  subgroup : String
  name : String
  unit : String
  ty : ODType
  monitorable : Bool
  configurable : Bool
deriving DecidableEq, Repr

/-- One initializer row `{{i, s}, {g, sg, nm, u, t, m, c}}` of the map. -/
def odRow (i s : Nat) (g sg nm u : String) (t : ODType) (m c : Bool) :
    ODEntryKey × ODEntryValue :=
  ((i, s), ⟨g, sg, nm, u, t, m, c⟩)

/-- The `OBJECT_DICTIONARY` metadata map, as its initializer list. -/
def OBJECT_DICTIONARY : List (ODEntryKey × ODEntryValue) := [
  odRow 0x1008 0x00 "INFO" "DEVICE" "DEVICE NAME" "" .OD_STRING true false,
  odRow 0x5FFF 0x00 "INFO" "SOFTWARE" "SOFTWARE VERSION" "" .OD_UINT32 true false,
  odRow 0x5FFF 0x01 "INFO" "SOFTWARE" "BUILD CONFIGURATION" "" .OD_STRING true false,
  odRow 0x2000 0x00 "WATCH" "WATCH" "UPTIME" "s" .OD_FLOAT32 true false,
  odRow 0x2000 0x01 "WATCH" "WATCH" "DRIVE_STATE" "" .OD_ENUM true false,
  odRow 0x2000 0x02 "WATCH" "WATCH" "FAULTS" "" .OD_UINT32 true false,
  odRow 0x2000 0x03 "WATCH" "WATCH" "DC_VOLTAGE" "V" .OD_FLOAT32 true false,
  odRow 0x2000 0x04 "WATCH" "WATCH" "DC_CURRENT" "A" .OD_FLOAT32 true false,
  odRow 0x2000 0x05 "WATCH" "WATCH" "FIELD_CURRENT" "A" .OD_FLOAT32 true true,
  odRow 0x2000 0x06 "WATCH" "WATCH" "STATOR_CURRENT" "A" .OD_FLOAT32 true false,
  odRow 0x2000 0x07 "WATCH" "WATCH" "PHA_CURRENT" "A" .OD_FLOAT32 true false,
  odRow 0x2000 0x08 "WATCH" "WATCH" "PHB_CURRENT" "A" .OD_FLOAT32 true false,
  odRow 0x2000 0x09 "WATCH" "WATCH" "PHC_CURRENT" "A" .OD_FLOAT32 true false,
  odRow 0x2000 0x0A "WATCH" "WATCH" "D_CURRENT" "A" .OD_FLOAT32 true false,
  odRow 0x2000 0x0B "WATCH" "WATCH" "Q_CURRENT" "A" .OD_FLOAT32 true false,
  odRow 0x2000 0x0C "WATCH" "WATCH" "PHA_TEMP" "°C" .OD_FLOAT32 true false,
  odRow 0x2000 0x0D "WATCH" "WATCH" "PHB_TEMP" "°C" .OD_FLOAT32 true false,
  odRow 0x2000 0x0E "WATCH" "WATCH" "PHC_TEMP" "°C" .OD_FLOAT32 true false,
  odRow 0x2000 0x0F "WATCH" "WATCH" "CASE_TEMP" "°C" .OD_FLOAT32 true false,
  odRow 0x2000 0x10 "WATCH" "WATCH" "MOTOR_S_TEMP" "°C" .OD_FLOAT32 true false,
  odRow 0x2000 0x11 "WATCH" "WATCH" "MOTOR_FW_TEMP" "°C" .OD_FLOAT32 true false,
  odRow 0x2000 0x12 "WATCH" "WATCH" "GAMMA_ANGLE_DEG" "°" .OD_FLOAT32 true true,
  odRow 0x2000 0x13 "WATCH" "WATCH" "SPEED_RPM" "rpm" .OD_FLOAT32 true true,
  odRow 0x2000 0x14 "WATCH" "WATCH" "TORQUE" "Nm" .OD_FLOAT32 true false,
  odRow 0x2000 0x15 "WATCH" "WATCH" "MECH_POWER" "W" .OD_FLOAT32 true false,
  odRow 0x2000 0x16 "WATCH" "WATCH" "OUT_ELEC_POWER" "W" .OD_FLOAT32 true false,
  odRow 0x2001 0x00 "DRIVE CONTROL" "DRIVE CONTROL" "POWER UP DRIVE" "" .OD_FUNC false true,
  odRow 0x2001 0x01 "DRIVE CONTROL" "DRIVE CONTROL" "POWER DOWN DRIVE" "" .OD_FUNC false true,
  odRow 0x2002 0x00 "SYSTEM CONTROL" "SYSTEM CONTROL" "RESET DEVICE" "" .OD_FUNC false true,
  odRow 0x2002 0x01 "SYSTEM CONTROL" "SYSTEM CONTROL" "RESET PARAMETERS" "" .OD_FUNC false true,
  odRow 0x2002 0x02 "SYSTEM CONTROL" "SYSTEM CONTROL" "APPLY PARAMETERS" "" .OD_FUNC false true,
  odRow 0x2002 0x03 "SYSTEM CONTROL" "SYSTEM CONTROL" "BEGIN POSITION SENSOR CALIBRATION" "" .OD_FUNC false true,
  odRow 0x2002 0x04 "SYSTEM CONTROL" "SYSTEM CONTROL" "INVERT ROTATION" "" .OD_FUNC false true,
  odRow 0x2002 0x05 "SYSTEM CONTROL" "SYSTEM CONTROL" "RESET FAULTS" "" .OD_FUNC false true,
  odRow 0x2100 0x00 "CONFIG" "MOTOR" "R" "Ω" .OD_FLOAT32 true true,
  odRow 0x2100 0x01 "CONFIG" "MOTOR" "LD" "H" .OD_FLOAT32 true true,
  odRow 0x2100 0x02 "CONFIG" "MOTOR" "KLD" "" .OD_FLOAT32 true true,
  odRow 0x2100 0x03 "CONFIG" "MOTOR" "LQ" "H" .OD_FLOAT32 true true,
  odRow 0x2100 0x04 "CONFIG" "MOTOR" "KLQ" "" .OD_FLOAT32 true true,
  odRow 0x2100 0x05 "CONFIG" "MOTOR" "OTP_STATOR" "°C" .OD_FLOAT32 true true,
  odRow 0x2100 0x06 "CONFIG" "MOTOR" "OTP_FW" "°C" .OD_FLOAT32 true true,
  odRow 0x2100 0x07 "CONFIG" "MOTOR" "FAN_TEMP_TH_ON" "°C" .OD_FLOAT32 true true,
  odRow 0x2100 0x08 "CONFIG" "MOTOR" "FAN_TEMP_TH_OFF" "°C" .OD_FLOAT32 true true,
  odRow 0x2101 0x00 "CONFIG" "MODEL" "REFERENCE" "n-M" .OD_ENUM true true,
  odRow 0x2101 0x01 "CONFIG" "MODEL_REGULATORS" "KP_SPEED" "" .OD_FLOAT32 true true,
  odRow 0x2101 0x02 "CONFIG" "MODEL_REGULATORS" "KI_SPEED" "" .OD_FLOAT32 true true,
  odRow 0x2101 0x03 "CONFIG" "MODEL_REGULATORS" "KP_ID" "" .OD_FLOAT32 true true,
  odRow 0x2101 0x04 "CONFIG" "MODEL_REGULATORS" "KI_ID" "" .OD_FLOAT32 true true,
  odRow 0x2101 0x05 "CONFIG" "MODEL_REGULATORS" "KP_IQ" "" .OD_FLOAT32 true true,
  odRow 0x2101 0x06 "CONFIG" "MODEL_REGULATORS" "KI_IQ" "" .OD_FLOAT32 true true,
  odRow 0x2101 0x07 "CONFIG" "MODEL_REGULATORS" "KP_IF" "" .OD_FLOAT32 true true,
  odRow 0x2101 0x08 "CONFIG" "MODEL_REGULATORS" "KI_IF" "" .OD_FLOAT32 true true,
  odRow 0x2101 0x09 "CONFIG" "MODEL" "IS_MOTOR_MAX" "A" .OD_FLOAT32 true true,
  odRow 0x2101 0x0A "CONFIG" "MODEL" "IS_GENER_MAX" "A" .OD_FLOAT32 true true,
  odRow 0x2101 0x0B "CONFIG" "MODEL" "IF_MAX" "A" .OD_FLOAT32 true true,
  odRow 0x2101 0x0C "CONFIG" "MODEL" "TORQUE_POS_MAX" "Nm" .OD_FLOAT32 true true,
  odRow 0x2101 0x0D "CONFIG" "MODEL" "TORQUE_NEG_MAX" "Nm" .OD_FLOAT32 true true,
  odRow 0x2101 0x0E "CONFIG" "MODEL" "SPEED_MAX" "rpm" .OD_FLOAT32 true true,
  odRow 0x2101 0x0F "CONFIG" "MODEL_FLUX_WEAKENING" "KP_FLUXWEAK" "" .OD_FLOAT32 true true,
  odRow 0x2101 0x10 "CONFIG" "MODEL_FLUX_WEAKENING" "KI_FLUXWEAK" "" .OD_FLOAT32 true true,
  odRow 0x2101 0x11 "CONFIG" "MODEL_FLUX_WEAKENING" "ID_MAX_FLUXWEAK" "A" .OD_FLOAT32 true true,
  odRow 0x2102 0x00 "CONFIG" "CONVERTER" "UVP_DC" "V" .OD_FLOAT32 true true,
  odRow 0x2102 0x01 "CONFIG" "CONVERTER" "OVP_DC" "V" .OD_FLOAT32 true true,
  odRow 0x2102 0x02 "CONFIG" "CONVERTER" "OCP_PHASE" "A" .OD_FLOAT32 true true,
  odRow 0x2102 0x03 "CONFIG" "CONVERTER" "OCP_FIELD" "A" .OD_FLOAT32 true true,
  odRow 0x2102 0x04 "CONFIG" "CONVERTER" "OCP_DC" "A" .OD_FLOAT32 true true,
  odRow 0x2102 0x05 "CONFIG" "CONVERTER" "OTP_JUNCTION" "°C" .OD_FLOAT32 true true,
  odRow 0x2102 0x06 "CONFIG" "CONVERTER" "OTP_CASE" "°C" .OD_FLOAT32 true true,
  odRow 0x2102 0x07 "CONFIG" "CONVERTER" "FAN_TEMP_TH_ON" "°C" .OD_FLOAT32 true true,
  odRow 0x2102 0x08 "CONFIG" "CONVERTER" "FAN_TEMP_TH_OFF" "°C" .OD_FLOAT32 true true,
  odRow 0x2103 0x00 "CONFIG" "CONTACTOR" "DCLINK_CHARGE_THRESHOLD" "V" .OD_FLOAT32 true true,
  odRow 0x2103 0x01 "CONFIG" "CONTACTOR" "DCLINK_CHARGE_TIMEOUT" "ms" .OD_UINT32 true true,
  odRow 0x2103 0x02 "CONFIG" "CONTACTOR" "DCLINK_CONTACTOR_HOLDUP" "ms" .OD_UINT32 true true,
  odRow 0x2103 0x03 "CONFIG" "CONTACTOR" "DCLINK_DISCHARGE_THRESHOLD" "V" .OD_FLOAT32 true true,
  odRow 0x2103 0x04 "CONFIG" "CONTACTOR" "DCLINK_DISCHARGE_TIMEOUT" "ms" .OD_UINT32 true true,
  odRow 0x2104 0x00 "CONFIG" "MCOSERVER" "PERIOD_HB" "ms" .OD_UINT32 true true,
  odRow 0x2104 0x01 "CONFIG" "MCOSERVER" "PERIOD_TPDO1" "ms" .OD_UINT32 true true,
  odRow 0x2104 0x02 "CONFIG" "MCOSERVER" "PERIOD_TPDO2" "ms" .OD_UINT32 true true,
  odRow 0x2104 0x03 "CONFIG" "MCOSERVER" "PERIOD_TPDO3" "ms" .OD_UINT32 true true,
  odRow 0x2104 0x04 "CONFIG" "MCOSERVER" "PERIOD_TPDO4" "ms" .OD_UINT32 true true,
  odRow 0x2105 0x00 "CONFIG" "POSSENS" "SECTORS" "" .OD_UINT32 true true,
  odRow 0x2105 0x01 "CONFIG" "POSSENS" "CAL_S_CURRENT" "A" .OD_FLOAT32 true true,
  odRow 0x2105 0x02 "CONFIG" "POSSENS" "CAL_F_CURRENT" "A" .OD_FLOAT32 true true,
  odRow 0x2105 0x03 "CONFIG" "POSSENS" "CAL_SPEED_RPM" "rpm" .OD_FLOAT32 true true,
  odRow 0xFFFF 0xFF "NULL" "NULL" "END_OF_OD" "" .OD_FUNC false false
]

/-- Byte count on the wire fixed by the width code (`w0` and `str` carry no
fixed scalar width). -/
def widthBytes : CoWidth → Nat
  | .u8 => 1 | .s8 => 1
  | .u16 => 2 | .s16 => 2
  | .u32 => 4 | .s32 => 4
  | .str => 0 | .w0 => 0

/-- Whether the record's data field is a database key. -/
def DataField.isDb : DataField → Bool
  | .dbIdx _ => true
  | _ => false

/-- Modelled from the spec (§4.1, the Dictionary Table engine is not part of
the visible source): `find(key)` returns the record of `co_dict` whose
(index, subindex) equals the query, scanning in table order. -/
def co_find (i s : Nat) : Option CO_OBJ_T :=
  co_dict.find? fun e => e.index == i && e.subindex == s

/-- Read permission of an access mode (`CO_OBJ____R_` or `CO_OBJ____RW`). -/
def readable : CoAccess → Bool
  | .ro => true | .rw => true | .wo => false | .na => false

/-- Write permission of an access mode (`CO_OBJ_____W` or `CO_OBJ____RW`). -/
def writable : CoAccess → Bool
  | .wo => true | .rw => true | .ro => false | .na => false

/-- Error kinds of the Access Mediator (spec §7). -/
inductive CoError where
  | NotFound | AccessDenied | SizeMismatch | BackingStoreUnavailable | BuildError
deriving DecidableEq, Repr

/-- The two operations of the protocol-server interface (spec §6). -/
inductive Op where
  | READ | WRITE
deriving DecidableEq, Repr

/-- Little-endian encoding of a value into `n` wire bytes. -/
def encodeLE : Nat → Nat → List Nat
  | 0, _ => []
  | n + 1, v => v % 256 :: encodeLE n (v / 256)

/-- Little-endian decoding of wire bytes into a value. -/
def decodeLE : List Nat → Nat
  | [] => 0
  | b :: rest => b + 256 * decodeLE rest

/-- Modelled from the spec (§4.2, §4.4): mutable state of the engine.
`slots` holds the current numeric value of every value slot, keyed by
(index, subindex); `strs` holds the byte content of the string objects
(the build-time device strings behind `manuf_data`), keyed by index. -/
structure MState where
  slots : Nat × Nat → Nat
  strs : Nat → List Nat

/-- Modelled from the spec (§4.2, §8): value of each slot before any write.
Direct-storage records start from their inline `Data` literal; deferred
database records start from the documented default of zero. -/
def initSlots (k : Nat × Nat) : Nat :=
  match co_find k.1 k.2 with
  | some e =>
    match e.data with
    | .lit n => if e.direct then n else 0
    | _ => 0
  | none => 0

/-- ASCII bytes of a device string. -/
def strBytes (s : String) : List Nat := s.toList.map Char.toNat

/-- Modelled from the spec: the engine state at startup.  The software
version and the SDO COB-IDs come from build macros outside the visible
source; no claim depends on their values. -/
def initState : MState :=
  { slots := initSlots
    strs := fun i =>
      if i == 0x1008 then strBytes "VMU_N1"
      else if i == 0x1009 then strBytes "2.0.0"
      else [] }

/-- Modelled from the spec (§4.4, §6, the Access Mediator is not part of the
visible source): `handle_request(index, subindex, operation, payload)`.
Lookup, then permission check (`AccessDenied`), then size check
(`SizeMismatch`), then transfer through the handler (string table, event
counter) or by raw copy; a failed request leaves the state unchanged. -/
def handle_request (s : MState) (i sub : Nat) (op : Op) (payload : List Nat) :
    Except CoError (List Nat) × MState :=
  match co_find i sub with
  | none => (.error .NotFound, s)
  | some e =>
    match op with
    | .READ =>
      if readable e.access then
        match e.ty with
        | .tstring => (.ok (s.strs i), s)
        | _ => (.ok (encodeLE (widthBytes e.width) (s.slots (i, sub))), s)
      else (.error .AccessDenied, s)
    | .WRITE =>
      if writable e.access then
        if payload.length == widthBytes e.width then
          match e.ty with
          | .counter =>
            (.ok [], { s with
              slots := fun k => if k == (i, sub) then s.slots (i, sub) + 1 else s.slots k })
          | _ =>
            (.ok [], { s with
              slots := fun k => if k == (i, sub) then decodeLE payload else s.slots k })
        else (.error .SizeMismatch, s)
      else (.error .AccessDenied, s)

/-- Modelled from the spec (§6): the read-only metadata interface
`describe(index, subindex)` over `OBJECT_DICTIONARY` (a `std::map` keyed by
exact (index, subindex)). -/
def describe (i s : Nat) : Option ODEntryValue :=
  (OBJECT_DICTIONARY.find? fun kv => kv.1 == (i, s)).map Prod.snd

/-- Number of records of `co_dict` with the given index and sub-index > 0
(keys are unique, so this is the number of distinct such sub-indices). -/
def subCountOf (i : Nat) : Nat :=
  (co_dict_used.filter fun e => e.index == i && e.subindex != 0).length

/-- Largest sub-index of any record of `co_dict` with the given index. -/
def maxSubOf (i : Nat) : Nat :=
  (co_dict_used.filter fun e => e.index == i).foldl (fun m e => max m e.subindex) 0

/-- The inline literal stored at sub-index 0 of the given index, if any. -/
def sub0lit (i : Nat) : Option Nat :=
  match co_find i 0 with
  | some e => match e.data with | .lit n => some n | _ => none
  | none => none

/-- Modelled from the spec (§4.1): the construction-time integrity check
that every sub-index-0 entry of a composite index stores the number of
sub-indices > 0 sharing that index; construction raises `BuildError` when
this yields `false`. -/
def buildCheckCount : Bool :=
  co_dict_used.all fun e =>
    e.subindex == 0 || sub0lit e.index == some (subCountOf e.index)

/-- The analogous construction-time check against the CANopen
highest-sub-index convention: every sub-index-0 entry of a composite index
stores the largest sub-index sharing that index. -/
def buildCheckHighest : Bool :=
  co_dict_used.all fun e =>
    e.subindex == 0 || sub0lit e.index == some (maxSubOf e.index)

/-- Strict lexicographic order on the (index, subindex) keys of records. -/
def keyLt (a b : CO_OBJ_T) : Prop :=
  a.index < b.index ∨ (a.index = b.index ∧ a.subindex < b.subindex)

instance : DecidableRel keyLt := fun a b => by
  unfold keyLt; infer_instance

/-! Helper lemmas shared by the claim theorems. -/

theorem encode_decode_of_bytes (l : List Nat) (h : ∀ b ∈ l, b < 256) :
    encodeLE l.length (decodeLE l) = l := by
  induction l with
  | nil => rfl
  | cons b rest ih =>
    have hb : b < 256 := h b (List.mem_cons_self _ _)
    have hrest : ∀ x ∈ rest, x < 256 := fun x hx => h x (List.mem_cons_of_mem _ hx)
    simp only [List.length_cons, decodeLE, encodeLE]
    congr 1
    · rw [Nat.add_mul_mod_self_left, Nat.mod_eq_of_lt hb]
    · rw [Nat.add_mul_div_left _ _ (by norm_num : 0 < 256), Nat.div_eq_of_lt hb,
        Nat.zero_add]
      exact ih hrest

theorem write_denied_of_ro (s : MState) (i sub : Nat) (payload : List Nat)
    (h : (co_find i sub).map CO_OBJ_T.access = some CoAccess.ro) :
    handle_request s i sub .WRITE payload = (.error .AccessDenied, s) := by
  cases hf : co_find i sub with
  | none => rw [hf] at h; cases h
  | some e =>
    rw [hf] at h
    have ha : e.access = CoAccess.ro := by
      simpa using h
    simp [handle_request, hf, ha, writable]

theorem rw_noncounter_plain :
    ∀ e ∈ co_dict, e.access = CoAccess.rw → e.ty ≠ CoType.counter →
      e.ty = CoType.plain := by decide

/-! Claim theorems. -/

/-- C1, counterexample: the claim fails on the table at index 0x2117.  Its
sub-index-0 record stores the inline literal 15, but only 13 distinct
sub-indices > 0 (1-6 and 9-15) share index 0x2117, and the spec-modelled
count-based construction check rejects the table. -/
theorem sub0_count_mismatch_0x2117 :
    sub0lit 0x2117 = some 15 ∧ subCountOf 0x2117 = 13 ∧
    sub0lit 0x2117 ≠ some (subCountOf 0x2117) ∧ buildCheckCount = false := by
  decide

/-- C1, amended: for every index of `co_dict` that has at least one
sub-index > 0, the value stored inline at sub-index 0 equals the LARGEST
sub-index sharing that index (the CANopen highest-sub-index convention) — 15
for 0x2117, whose sub-indices 1-6 and 9-15 are non-contiguous — and the
construction check based on the highest sub-index accepts the table. -/
theorem sub0_equals_max_subindex :
    (∀ e ∈ co_dict_used, 0 < e.subindex →
      sub0lit e.index = some (maxSubOf e.index)) ∧
    buildCheckHighest = true := by
  decide

/-- C1, witness for the amended theorem at the record (0x2117, 1). -/
theorem sub0_equals_max_subindex_witness :
    sub0lit 0x2117 = some (maxSubOf 0x2117) ∧ buildCheckHighest = true :=
  ⟨sub0_equals_max_subindex.1 (dbRW 0x2117 1 .u8 "BRAKE_CMD_CANOPEN")
      (by decide) (by decide),
    sub0_equals_max_subindex.2⟩

/-- C2, counterexample: metadata key (0x2100, 0x00) (name "R") is
configurable, yet the `co_dict` record with the same key is a read-only
direct-storage count slot, not writable. -/
theorem configurable_not_writable_0x2100_0 :
    (describe 0x2100 0).map ODEntryValue.configurable = some true ∧
    (co_find 0x2100 0).map (fun e => writable e.access) = some false := by
  decide

/-- C2, amended: configurable metadata keys need not appear in `co_dict` at
all (the two tables describe different devices); of those that do, the
sub-index-0 keys collide with read-only count slots and the keys under index
0x2103 collide with the read-only commit-info object, and for every remaining
configurable key present in `co_dict` — (0x2100,1), (0x2100,2), (0x2101,1),
(0x2102,1), (0x2102,2) — the `co_dict` record is writable (read-write). -/
theorem configurable_writable_in_co_dict :
    ∀ kv ∈ OBJECT_DICTIONARY, kv.2.configurable = true →
      kv.1.2 ≠ 0 → kv.1.1 ≠ 0x2103 →
      (co_find kv.1.1 kv.1.2).all (fun e => writable e.access) = true := by
  decide

/-- C2, witness for the amended theorem at metadata key (0x2100, 0x01). -/
theorem configurable_writable_in_co_dict_witness :
    (co_find 0x2100 1).all (fun e => writable e.access) = true :=
  configurable_writable_in_co_dict
    (odRow 0x2100 0x01 "CONFIG" "MOTOR" "LD" "H" .OD_FLOAT32 true true)
    (by decide) rfl (by decide) (by decide)

/-- C3: for every record present in the dictionary table, `find` on its
(index, subindex) returns exactly that record (keys are unique), and for
every key not present in the table, `find` returns `NotFound` (`none`). -/
theorem find_exact_or_not_found :
    (∀ e ∈ co_dict, co_find e.index e.subindex = some e) ∧
    (∀ i s : Nat, (∀ e ∈ co_dict, ¬(e.index = i ∧ e.subindex = s)) →
      co_find i s = none) := by
  constructor
  · decide
  · intro i s h
    unfold co_find
    rw [List.find?_eq_none]
    intro e he
    simp only [Bool.and_eq_true, beq_iff_eq, not_and]
    intro h1 h2
    exact h e he ⟨h1, h2⟩

/-- C3, witness: `find` returns the (0x1000, 0) record, and returns
`NotFound` for the absent key (0x9999, 0). -/
theorem find_exact_or_not_found_witness :
    co_find 0x1000 0 = some (dR 0x1000 0 .u32 0x198) ∧
    co_find 0x9999 0 = none :=
  ⟨find_exact_or_not_found.1 (dR 0x1000 0 .u32 0x198) (by decide),
    find_exact_or_not_found.2 0x9999 0 (by decide)⟩

/-- C4: a write to a read-only record always fails with `AccessDenied` and
returns the state unchanged (in particular every value slot is unchanged). -/
theorem write_readonly_denied_unchanged (s : MState) (i sub : Nat)
    (payload : List Nat)
    (h : (co_find i sub).map CO_OBJ_T.access = some CoAccess.ro) :
    handle_request s i sub .WRITE payload = (.error .AccessDenied, s) :=
  write_denied_of_ro s i sub payload h

/-- C4, witness at the read-only record (0x1000, 0). -/
theorem write_readonly_denied_witness :
    handle_request initState 0x1000 0 .WRITE [1, 2, 3, 4] =
      (.error .AccessDenied, initState) :=
  write_readonly_denied_unchanged initState 0x1000 0 [1, 2, 3, 4] (by decide)

/-- C5, counterexample: the claim that the stored value after a counter write
is never the written payload fails.  Writing the payload [1,0,0,0] (value 1)
to the fresh counter (0x2125, 1) completes and leaves stored value 1, which
IS the written payload's value. -/
theorem counter_write_stores_payload_value :
    (handle_request initState 0x2125 1 .WRITE [1, 0, 0, 0]).1 = .ok [] ∧
    (handle_request initState 0x2125 1 .WRITE [1, 0, 0, 0]).2.slots (0x2125, 1) =
      decodeLE [1, 0, 0, 0] :=
  ⟨rfl, by decide⟩

/-- C5, amended: writing any payload of the declared width to a record
carrying the counter handler increments the stored sequence by exactly 1 and
ignores the payload (the new stored value is old + 1 whatever the payload, so
it need not differ from the written payload); the first write from the
initial state takes the counter from 0 to 1 (see the witness). -/
theorem counter_write_increments (s : MState) (i sub : Nat) (e : CO_OBJ_T)
    (payload : List Nat) (hf : co_find i sub = some e)
    (hty : e.ty = CoType.counter) (hacc : writable e.access = true)
    (hlen : payload.length = widthBytes e.width) :
    (handle_request s i sub .WRITE payload).1 = .ok [] ∧
    (handle_request s i sub .WRITE payload).2.slots (i, sub) =
      s.slots (i, sub) + 1 := by
  simp [handle_request, hf, hty, hacc, hlen]

/-- C5, witness: the first write to counter (0x2102, 1) takes the stored
sequence from 0 to 1, for a payload whose value is not 1. -/
theorem counter_write_increments_witness :
    initState.slots (0x2102, 1) = 0 ∧
    (handle_request initState 0x2102 1 .WRITE [7, 7, 7, 7]).1 = .ok [] ∧
    (handle_request initState 0x2102 1 .WRITE [7, 7, 7, 7]).2.slots (0x2102, 1) =
      initState.slots (0x2102, 1) + 1 :=
  ⟨by decide,
    (counter_write_increments initState 0x2102 1
      (cntRW 0x2102 1 .u32 "EEPROM_CMD_READ") [7, 7, 7, 7]
      (by decide) rfl rfl rfl).1,
    (counter_write_increments initState 0x2102 1
      (cntRW 0x2102 1 .u32 "EEPROM_CMD_READ") [7, 7, 7, 7]
      (by decide) rfl rfl rfl).2⟩

/-- C6: for a read-write record without a value-mutating handler (counters
excluded; every read-write record of `co_dict` is then a plain scalar),
writing a payload of the declared byte width completes and an immediate read
of the same key returns exactly the written bytes. -/
theorem write_then_read_roundtrip (s : MState) (i sub : Nat) (e : CO_OBJ_T)
    (payload : List Nat) (hf : co_find i sub = some e)
    (hacc : e.access = CoAccess.rw) (hty : e.ty ≠ CoType.counter)
    (hlen : payload.length = widthBytes e.width)
    (hbytes : ∀ b ∈ payload, b < 256) :
    (handle_request s i sub .WRITE payload).1 = .ok [] ∧
    handle_request (handle_request s i sub .WRITE payload).2 i sub .READ [] =
      (.ok payload, (handle_request s i sub .WRITE payload).2) := by
  have hmem : e ∈ co_dict := List.mem_of_find?_eq_some hf
  have hplain : e.ty = CoType.plain := rw_noncounter_plain e hmem hacc hty
  have h1 : handle_request s i sub .WRITE payload =
      (.ok [], { s with
        slots := fun k => if k == (i, sub) then decodeLE payload else s.slots k }) := by
    simp [handle_request, hf, hacc, hplain, hlen, writable]
  rw [h1]
  refine ⟨rfl, ?_⟩
  have h3 : readable e.access = true := by rw [hacc]; rfl
  simp [handle_request, hf, hplain, h3, ← hlen,
    encode_decode_of_bytes payload hbytes]

/-- C6, witness: round trip at the read-write record (0x2100, 1) with the
one-byte payload [42]. -/
theorem write_then_read_roundtrip_witness :
    (handle_request initState 0x2100 1 .WRITE [42]).1 = .ok [] ∧
    handle_request (handle_request initState 0x2100 1 .WRITE [42]).2
        0x2100 1 .READ [] =
      (.ok [42], (handle_request initState 0x2100 1 .WRITE [42]).2) :=
  write_then_read_roundtrip initState 0x2100 1
    (dbRW 0x2100 1 .u8 "GLOBAL_MANUAL_ENABLE") [42]
    (by decide) rfl (by decide) rfl (by decide)

/-- C7: `co_dict` holds a record with key (0x1000, 0), 32-bit unsigned
width, read-only access, direct (inline constant) storage of 0x198; a READ
returns the bytes [0x98, 0x01, 0, 0], which decode to 0x198, and any WRITE
to that key fails with `AccessDenied`. -/
theorem entry_0x1000_read_write_behaviour :
    co_find 0x1000 0 =
      some ⟨0x1000, 0, .u32, .ro, true, false, .plain, .lit 0x198, .zeroLit, 0⟩ ∧
    (handle_request initState 0x1000 0 .READ []).1 =
      .ok [0x98, 0x01, 0x00, 0x00] ∧
    decodeLE [0x98, 0x01, 0x00, 0x00] = 0x198 ∧
    ∀ payload : List Nat,
      handle_request initState 0x1000 0 .WRITE payload =
        (.error .AccessDenied, initState) :=
  ⟨by decide, rfl, by decide,
    fun payload => write_denied_of_ro initState 0x1000 0 payload (by decide)⟩

set_option maxHeartbeats 4000000 in
/-- C8: the records of `co_dict` other than the terminating end-mark are
pairwise strictly increasing in lexicographic (index, subindex) order (which
subsumes sortedness of adjacent records); in particular all their keys are
pairwise distinct, so ordered (binary) search is sound. -/
theorem co_dict_keys_strictly_sorted :
    List.Pairwise keyLt co_dict.dropLast ∧
    List.Pairwise (fun a b => (a.index, a.subindex) ≠ (b.index, b.subindex))
      co_dict.dropLast := by
  constructor
  · decide
  · decide

/-- C9: in `OBJECT_DICTIONARY` the monitorable flag is false exactly for the
entries whose display type is `OD_FUNC`, the (0xFFFF, 0xFF) sentinel
included; every entry of any other display type has monitorable = true. -/
theorem monitorable_iff_not_od_func :
    ∀ kv ∈ OBJECT_DICTIONARY,
      kv.2.monitorable = false ↔ kv.2.ty = ODType.OD_FUNC := by
  decide

/-- C9, witness at the (0xFFFF, 0xFF) sentinel row. -/
theorem monitorable_iff_not_od_func_witness :
    (odRow 0xFFFF 0xFF "NULL" "NULL" "END_OF_OD" "" .OD_FUNC false false).2.monitorable
      = false :=
  (monitorable_iff_not_od_func
    (odRow 0xFFFF 0xFF "NULL" "NULL" "END_OF_OD" "" .OD_FUNC false false)
    (by decide)).mpr rfl

/-- C10: a record of `co_dict` carries `INIT_FROM_DB_FLAG` exactly when its
`DataPtr` field is the literal `nullptr` (direct records write `0` there),
and every such deferred record stores a database key (`db::eIndex` value) in
its `Data` field and has no direct-storage bit in its key. -/
theorem init_from_db_iff_nullptr :
    ∀ e ∈ co_dict,
      (e.extraFlags = INIT_FROM_DB_FLAG ↔ e.dataPtr = DataPtr.nullptrLit) ∧
      (e.extraFlags = INIT_FROM_DB_FLAG →
        e.data.isDb = true ∧ e.direct = false) := by
  decide

/-- C10, witness at the deferred record (0x1017, 0). -/
theorem init_from_db_iff_nullptr_witness :
    (dbR 0x1017 0 .u16 "CO_PRODUCER_HB").dataPtr = DataPtr.nullptrLit ∧
    (dbR 0x1017 0 .u16 "CO_PRODUCER_HB").data.isDb = true :=
  ⟨(init_from_db_iff_nullptr (dbR 0x1017 0 .u16 "CO_PRODUCER_HB")
      (by decide)).1.mp rfl,
    ((init_from_db_iff_nullptr (dbR 0x1017 0 .u16 "CO_PRODUCER_HB")
      (by decide)).2 rfl).1⟩
